import Mathlib

/-!
Verification development for the FP-Cyclegan repository
(`src/models/networks.py`).

The file shallowly embeds the parts of `networks.py` that the checked
properties are about:

* the adversarial-loss component `GANLoss` (`__init__`, `get_target_tensor`,
  `get_target_tensorAB`, `__call__`),
* the normalization selector `get_norm_layer` (and the `LayerNorm`
  constructor it invokes),
* the weight initializer `init_weights` / `init_net` and the generator
  factory `define_G`,
* the gradient-penalty utility `cal_gradient_penalty`,
* the residual block `ResnetBlock` (`build_conv_block`, `forward`) with a
  concrete rational-tensor semantics of `ReflectionPad2d`,
  `ReplicationPad2d` and `Conv2d`,
* the shape behaviour of `Discriminator_Classify.forward`.

Modelling conventions, used throughout:

* floating-point scalars are modelled as rationals (`ℚ`);
* a 4-D tensor is a shape `(n, c, h, w)` together with a total valuation
  `ℕ → ℕ → ℕ → ℕ → ℚ` (out-of-range reads return whatever the valuation
  says; PyTorch would reject genuinely out-of-range configurations, which
  the theorems exclude through their hypotheses);
* Python exceptions (`NotImplementedError`, `TypeError`, shape errors) are
  modelled with `Except String`;
* calls into the random source (`random.randint`, `torch.rand`) are
  modelled by passing the drawn outcome in as an explicit argument;
* the autograd engine and the (irrational) L2 norm used by the gradient
  penalty are external collaborators and enter as function parameters;
* transcendental loss reductions (`BCEWithLogitsLoss`, `CrossEntropyLoss`)
  are kept symbolic: the embedding records which reduction was applied to
  which prediction/target pair; `MSELoss` and the `wgangp` means are
  computed exactly over `ℚ`.
-/

/-! ### Small helpers -/

/-- Mean of a list of rationals, `tensor.mean()` for a flattened tensor. -/
def meanQ (l : List ℚ) : ℚ :=
  l.sum / l.length

/-- Substring test, modelling Python `haystack.find(needle) != -1`. -/
def strContains (haystack needle : String) : Bool :=
  haystack.data.tails.any (fun t => needle.data.isPrefixOf t)

/-! ### GANLoss (networks.py lines 252-352)

`GANLoss.__init__` draws `target_real_label = random.randint(7, 12) * 0.1`
and `target_fake_label = random.randint(0, 3) * 0.1` once, registers them
as buffers together with the integer vectors `[1,1,1,1]` / `[0,0,0,0]`,
and selects a loss reduction from the mode string.  The two `randint`
outcomes are passed in as the explicit arguments `r` and `f` (Python
`random.randint(a, b)` is uniform over the closed range `a..b`).
-/

/-- Loss-reduction object chosen in `GANLoss.__init__`:
`nn.MSELoss`, `nn.BCEWithLogitsLoss`, `nn.CrossEntropyLoss`. -/
inductive LossKind
  | mse
  | bce
  | ce
deriving DecidableEq

/-- Result of one `GANLoss.__call__`.  The mean-squared error and the
`wgangp` means are exact rationals; the logit/categorical cross-entropies
are transcendental and stay symbolic, recording the prediction and the
target they were applied to. -/
inductive GANLossValue
  | ofMSE (v : ℚ)
  | ofBCE (pred target : List ℚ)
  | ofCE (pred target : List ℚ)
  | ofScalar (v : ℚ)
deriving DecidableEq

/-- State of a constructed `GANLoss` module: the four registered buffers,
the mode string, and the selected loss reduction (`none` for `wgangp`,
where `self.loss = None`). -/
structure GANLoss where
  real_label : ℚ
  fake_label : ℚ
  A_label : List ℚ
  B_label : List ℚ
  gan_mode : String
  loss : Option LossKind
deriving DecidableEq

/-- `GANLoss.__init__(gan_mode)` with the two `random.randint` outcomes
`r ∈ 7..12` and `f ∈ 0..3` passed explicitly; `* 0.1` becomes `/ 10`.
Unrecognized modes raise `NotImplementedError` (networks.py line 290). -/
def ganLossInit (r f : ℕ) (gan_mode : String) : Except String GANLoss :=
  if gan_mode = "lsgan" then
    .ok ⟨(r : ℚ) / 10, (f : ℚ) / 10, [1, 1, 1, 1], [0, 0, 0, 0], gan_mode, some LossKind.mse⟩
  else if gan_mode = "binary" then
    .ok ⟨(r : ℚ) / 10, (f : ℚ) / 10, [1, 1, 1, 1], [0, 0, 0, 0], gan_mode, some LossKind.ce⟩
  else if gan_mode = "vanilla" then
    .ok ⟨(r : ℚ) / 10, (f : ℚ) / 10, [1, 1, 1, 1], [0, 0, 0, 0], gan_mode, some LossKind.bce⟩
  else if gan_mode = "wgangp" then
    .ok ⟨(r : ℚ) / 10, (f : ℚ) / 10, [1, 1, 1, 1], [0, 0, 0, 0], gan_mode, none⟩
  else
    .error ("gan mode " ++ gan_mode ++ " not implemented")

/-- `GANLoss.get_target_tensor`: picks the stored real/fake label buffer
and broadcasts it to the prediction shape (`expand_as`); predictions are
flattened to lists, so the broadcast is `List.replicate`. -/
def get_target_tensor (g : GANLoss) (prediction : List ℚ) (target_is_real : Bool) : List ℚ :=
  List.replicate prediction.length (if target_is_real then g.real_label else g.fake_label)

/-- `GANLoss.get_target_tensorAB`: returns the stored `A_label`/`B_label`
buffer as is (the `expand_as` at line 326 is commented out in the source). -/
def get_target_tensorAB (g : GANLoss) (target_is_real : Bool) : List ℚ :=
  if target_is_real then g.A_label else g.B_label

/-- `GANLoss.__call__(prediction, target_is_real)` (networks.py lines
329-352).  The final `none` models the fall-through where the local
variable `loss` is never assigned (Python `UnboundLocalError`); the inner
`none`s model calling a `self.loss` that is `None`. -/
def ganLossCall (g : GANLoss) (prediction : List ℚ) (target_is_real : Bool) :
    Option GANLossValue :=
  if g.gan_mode = "lsgan" ∨ g.gan_mode = "vanilla" then
    match g.loss with
    | some LossKind.mse =>
        some (.ofMSE (meanQ (List.zipWith (fun p t => (p - t) ^ 2) prediction
          (get_target_tensor g prediction target_is_real))))
    | some LossKind.bce =>
        some (.ofBCE prediction (get_target_tensor g prediction target_is_real))
    | some LossKind.ce =>
        some (.ofCE prediction (get_target_tensor g prediction target_is_real))
    | none => none
  else if g.gan_mode = "binary" then
    match g.loss with
    | some LossKind.mse =>
        some (.ofMSE (meanQ (List.zipWith (fun p t => (p - t) ^ 2) prediction
          (get_target_tensorAB g target_is_real))))
    | some LossKind.bce =>
        some (.ofBCE prediction (get_target_tensorAB g target_is_real))
    | some LossKind.ce =>
        some (.ofCE prediction (get_target_tensorAB g target_is_real))
    | none => none
  else if g.gan_mode = "wgangp" then
    some (.ofScalar (if target_is_real then -(meanQ prediction) else meanQ prediction))
  else
    none

/-! ### Normalization selector (networks.py lines 18-68)

`get_norm_layer` returns `functools.partial` factories for `batch` and
`instance`, a function returning `Identity` for `none`, and for `layer`
executes `LayerNorm()` — a call with zero arguments to a constructor whose
first parameter `normalized_shape` has no default, which raises
`TypeError` before any normalization object exists.
-/

/-- A per-channel-count factory as returned by `get_norm_layer` for the
policies that produce one. -/
inductive NormFactory
  | batchNorm
  | instanceNorm
  | noneFactory
deriving DecidableEq

/-- A constructed normalization operator, as produced by applying a
`NormFactory` to a channel count. -/
inductive NormModule
  | batchNorm2d (num_features : ℕ) (affine track_running_stats : Bool)
  | instanceNorm2d (num_features : ℕ) (affine track_running_stats : Bool)
  | identity
deriving DecidableEq

/-- Applying the callable returned by `get_norm_layer` to a channel count:
`partial(nn.BatchNorm2d, affine=True, track_running_stats=True)`,
`partial(nn.InstanceNorm2d, affine=False, track_running_stats=False)`,
and `def norm_layer(x): return Identity()`. -/
def applyNormFactory : NormFactory → ℕ → NormModule
  | .batchNorm, nf => .batchNorm2d nf true true
  | .instanceNorm, nf => .instanceNorm2d nf false false
  | .noneFactory, _ => .identity

/-- State of a constructed `LayerNorm` module (networks.py lines 29-37). -/
structure LayerNormModule where
  normalized_shape : ℕ
  eps : ℚ
  data_format : String
deriving DecidableEq

/-- `LayerNorm.__init__(normalized_shape, eps=1e-6,
data_format="channels_last")`.  The first parameter has no default, so a
call that omits it raises `TypeError` before the body runs — modelled by
the `none` case.  A `data_format` outside the two conventions raises
`NotImplementedError` (line 36). -/
def layerNormInit (normalized_shape : Option ℕ) (eps : ℚ) (data_format : String) :
    Except String LayerNormModule :=
  match normalized_shape with
  | none => .error "TypeError: LayerNorm missing 1 required positional argument: normalized_shape"
  | some ns =>
      if data_format = "channels_last" ∨ data_format = "channels_first" then
        .ok ⟨ns, eps, data_format⟩
      else
        .error "NotImplementedError"

/-- What `get_norm_layer` hands back on success: either a factory to be
applied to a channel count, or (on the `layer` branch, had it succeeded)
an already-constructed `LayerNorm` instance. -/
inductive NormSelection
  | factory (f : NormFactory)
  | layerInstance (l : LayerNormModule)
deriving DecidableEq

/-- `get_norm_layer(norm_type)` (networks.py lines 49-68).  The `layer`
branch evaluates `LayerNorm()` with no arguments. -/
def get_norm_layer (norm_type : String) : Except String NormSelection :=
  if norm_type = "batch" then .ok (.factory .batchNorm)
  else if norm_type = "instance" then .ok (.factory .instanceNorm)
  else if norm_type = "layer" then
    Except.map NormSelection.layerInstance (layerNormInit none (1 / 1000000) "channels_last")
  else if norm_type = "none" then .ok (.factory .noneFactory)
  else .error ("normalization layer [" ++ norm_type ++ "] is not found")

/-! ### Weight initializer and generator factory (networks.py lines 100-200) -/

/-- A network submodule as seen by `init_weights`: its class name and
whether it exposes `weight` / a non-`None` `bias`. -/
structure PyModule where
  classname : String
  has_weight : Bool
  has_bias : Bool
deriving DecidableEq

/-- The closure `init_func` inside `init_weights` (networks.py lines
111-128).  The in-place random fills mutate parameter values, which the
embedding does not track; only the control flow (and in particular the
`NotImplementedError` for an unknown `init_type`) is modelled. -/
def init_func (init_type : String) (m : PyModule) : Except String Unit :=
  if m.has_weight && (strContains m.classname "Conv" || strContains m.classname "Linear") then
    if init_type = "normal" then .ok ()
    else if init_type = "xavier" then .ok ()
    else if init_type = "kaiming" then .ok ()
    else if init_type = "orthogonal" then .ok ()
    else .error ("initialization method [" ++ init_type ++ "] is not implemented")
  else if strContains m.classname "BatchNorm2d" then .ok ()
  else .ok ()

/-- `init_weights(net, init_type, init_gain)`: `net.apply(init_func)`
visits every submodule; the first raised exception propagates.  A network
is its list of submodules; `init_gain` only scales the random fills and
does not affect control flow. -/
def init_weights (net : List PyModule) (init_type : String) : Except String Unit :=
  match net with
  | [] => .ok ()
  | m :: rest => do
      let _ ← init_func init_type m
      init_weights rest init_type

/-- A generator network as constructed by `define_G`, with its
construction arguments. -/
inductive GenNet
  | resnet (input_nc output_nc ngf n_blocks : ℕ) (use_dropout : Bool)
  | convnext (input_nc output_nc ngf : ℕ)
  | invnext (input_nc output_nc ngf : ℕ)
  | convnextBI (input_nc output_nc ngf : ℕ)
  | unet (input_nc output_nc num_downs ngf : ℕ) (use_dropout : Bool)
deriving DecidableEq

/-- Representative submodule list of each generator variant, as traversed
by `net.apply` in `init_weights`.  Each variant contains `Conv2d` layers
with weights (all eight architectures do), which is the only fact the
initializer's control flow depends on. -/
def GenNet.moduleList : GenNet → List PyModule
  | .resnet _ _ _ _ _ =>
      [⟨"ReflectionPad2d", false, false⟩, ⟨"Conv2d", true, true⟩, ⟨"ReLU", false, false⟩,
       ⟨"ConvTranspose2d", true, true⟩, ⟨"Tanh", false, false⟩]
  | .convnext _ _ _ =>
      [⟨"Conv2d", true, true⟩, ⟨"LayerNorm", true, true⟩, ⟨"Linear", true, true⟩,
       ⟨"GELU", false, false⟩, ⟨"ConvTranspose2d", true, true⟩, ⟨"Tanh", false, false⟩]
  | .invnext _ _ _ =>
      [⟨"Involution2d", true, true⟩, ⟨"Conv2d", true, true⟩, ⟨"LayerNorm", true, true⟩,
       ⟨"Linear", true, true⟩, ⟨"ConvTranspose2d", true, true⟩, ⟨"Tanh", false, false⟩]
  | .convnextBI _ _ _ =>
      [⟨"Conv2d", true, true⟩, ⟨"LayerNorm", true, true⟩, ⟨"Linear", true, true⟩,
       ⟨"Resize", false, false⟩, ⟨"ConvTranspose2d", true, true⟩, ⟨"Tanh", false, false⟩]
  | .unet _ _ _ _ _ =>
      [⟨"Conv2d", true, true⟩, ⟨"LeakyReLU", false, false⟩,
       ⟨"ConvTranspose2d", true, true⟩, ⟨"Tanh", false, false⟩]

/-- `init_net(net, init_type, init_gain, gpu_ids)` on the CPU path
(`gpu_ids = []`): no `DataParallel` wrapping, then `init_weights`. -/
def init_net (net : GenNet) (init_type : String) : Except String GenNet := do
  let _ ← init_weights net.moduleList init_type
  .ok net

/-- `define_G(input_nc, output_nc, ngf, netG, norm, use_dropout,
init_type, init_gain, gpu_ids=[])` (networks.py lines 152-200):
`get_norm_layer` runs first, then the dispatch on `netG` (note the
capitalised branch name `Convnext_Interpolation` at line 192), then
`init_net`. -/
def define_G (input_nc output_nc ngf : ℕ) (netG norm : String) (use_dropout : Bool)
    (init_type : String) : Except String GenNet := do
  let _norm_layer ← get_norm_layer norm
  let net ←
    (if netG = "resnet_9blocks" then .ok (.resnet input_nc output_nc ngf 9 use_dropout)
     else if netG = "resnet_6blocks" then .ok (.resnet input_nc output_nc ngf 6 use_dropout)
     else if netG = "resnet_1blocks" then .ok (.resnet input_nc output_nc ngf 1 use_dropout)
     else if netG = "convnext" then .ok (.convnext input_nc output_nc ngf)
     else if netG = "invnext" then .ok (.invnext input_nc output_nc ngf)
     else if netG = "Convnext_Interpolation" then .ok (.convnextBI input_nc output_nc ngf)
     else if netG = "unet_128" then .ok (.unet input_nc output_nc 7 ngf use_dropout)
     else if netG = "unet_256" then .ok (.unet input_nc output_nc 8 ngf use_dropout)
     else .error ("Generator model name [" ++ netG ++ "] is not recognized")
      : Except String GenNet)
  init_net net init_type

/-! ### Rational 4-D tensors

A `(batch, channel, height, width)` tensor over `ℚ` with a total
valuation.  PyTorch layers index only inside the stated shape; reads the
layer semantics below perform are in range whenever the theorems'
side-conditions hold.
-/

/-- A 4-D tensor: shape plus valuation. -/
structure T4 where
  n : ℕ
  c : ℕ
  h : ℕ
  w : ℕ
  data : ℕ → ℕ → ℕ → ℕ → ℚ

/-- Sum of `f 0 + ... + f (k-1)`. -/
def sumTo (k : ℕ) (f : ℕ → ℚ) : ℚ :=
  ((List.range k).map f).sum

/-- Read a tensor through an implicit zero border of width `p`
(the `padding` argument of `nn.Conv2d`): coordinate `y` of the padded
tensor maps to `y - p` of the original, and reads outside the original
extent give `0`. -/
def zeroPadAt (t : T4) (p : ℕ) (b i y x : ℕ) : ℚ :=
  if p ≤ y ∧ y < p + t.h ∧ p ≤ x ∧ x < p + t.w then t.data b i (y - p) (x - p) else 0

/-- `nn.Conv2d(cin, cout, kernel_size=k, stride=s, padding=p)` applied to
a tensor: cross-correlation with per-output-channel bias.  Output spatial
formula `(len + 2p - k) / s + 1`; PyTorch additionally requires
`t.c = cin` and `k ≤ len + 2p`, which the theorems ensure. -/
def conv2d (cin cout k s p : ℕ) (weight : ℕ → ℕ → ℕ → ℕ → ℚ) (bias : ℕ → ℚ)
    (t : T4) : T4 :=
  { n := t.n, c := cout,
    h := (t.h + 2 * p - k) / s + 1,
    w := (t.w + 2 * p - k) / s + 1,
    data := fun b o y x =>
      bias o + sumTo cin (fun i => sumTo k (fun ky => sumTo k (fun kx =>
        weight o i ky kx * zeroPadAt t p b i (s * y + ky) (s * x + kx)))) }

/-- Index map of `nn.ReflectionPad2d(p)` along one axis of length `len`:
mirror without repeating the border sample. -/
def reflIdx (len p y : ℕ) : ℕ :=
  if y < p then p - y
  else if y < p + len then y - p
  else 2 * len + p - 2 - y

/-- `nn.ReflectionPad2d(p)`. -/
def reflectionPad2d (p : ℕ) (t : T4) : T4 :=
  { n := t.n, c := t.c, h := t.h + 2 * p, w := t.w + 2 * p,
    data := fun b i y x => t.data b i (reflIdx t.h p y) (reflIdx t.w p x) }

/-- Index map of `nn.ReplicationPad2d(p)` along one axis: clamp to the
border sample. -/
def replIdx (len p y : ℕ) : ℕ :=
  if y < p then 0
  else if y < p + len then y - p
  else len - 1

/-- `nn.ReplicationPad2d(p)`. -/
def replicationPad2d (p : ℕ) (t : T4) : T4 :=
  { n := t.n, c := t.c, h := t.h + 2 * p, w := t.w + 2 * p,
    data := fun b i y x => t.data b i (replIdx t.h p y) (replIdx t.w p x) }

/-- `nn.ReLU(True)`: pointwise positive part. -/
def relu4 (t : T4) : T4 :=
  { n := t.n, c := t.c, h := t.h, w := t.w,
    data := fun b i y x => max (t.data b i y x) 0 }

/-- `nn.Dropout(0.5)` in evaluation mode: the identity map. -/
def dropoutEval (t : T4) : T4 := t

/-! ### Gradient penalty (networks.py lines 355-389)

`cal_gradient_penalty(netD, real_data, fake_data, device, type, constant,
lambda_gp)`.  The autograd engine (which produced `gradients[0]`) and the
`‖·‖₂` norm with its `1e-16` epsilon are irrational external computations
supplied as the parameters `autograd` and `norm2eps`; the per-sample
`torch.rand` draw used by the `mixed` policy is supplied as `alphaDraw`.
-/

/-- The `mixed` interpolation: one uniform weight per batch element,
broadcast across channel and spatial axes
(`alpha * real_data + (1 - alpha) * fake_data`). -/
def mixedInterp (alphaDraw : ℕ → ℚ) (real_data fake_data : T4) : T4 :=
  { n := real_data.n, c := real_data.c, h := real_data.h, w := real_data.w,
    data := fun b i y x =>
      alphaDraw b * real_data.data b i y x + (1 - alphaDraw b) * fake_data.data b i y x }

/-- `gradients[0].view(real_data.size(0), -1)`: flatten the gradient
tensor into one rational list per sample. -/
def flattenPerSample (n : ℕ) (t : T4) : List (List ℚ) :=
  (List.range n).map (fun b =>
    (List.range t.c).flatMap (fun i =>
      (List.range t.h).flatMap (fun y =>
        (List.range t.w).map (fun x => t.data b i y x))))

/-- `cal_gradient_penalty` (networks.py lines 369-389).  `lambda_gp > 0.0`
is tested first; only then is the interpolation type dispatched, so a
non-positive weight returns `(0.0, None)` for any `type` string. -/
def cal_gradient_penalty (autograd : (T4 → T4) → T4 → T4) (norm2eps : List ℚ → ℚ)
    (netD : T4 → T4) (real_data fake_data : T4) (device ty : String)
    (constant lambda_gp : ℚ) (alphaDraw : ℕ → ℚ) :
    Except String (ℚ × Option (List (List ℚ))) :=
  if 0 < lambda_gp then
    match (if ty = "real" then .ok real_data
           else if ty = "fake" then .ok fake_data
           else if ty = "mixed" then .ok (mixedInterp alphaDraw real_data fake_data)
           else .error (ty ++ " not implemented") : Except String T4) with
    | .error e => .error e
    | .ok interpolatesv =>
        let gradients := autograd netD interpolatesv
        let flat := flattenPerSample (real_data.n) gradients
        let gradient_penalty :=
          meanQ (flat.map (fun gb => (norm2eps gb - constant) ^ 2)) * lambda_gp
        .ok (gradient_penalty, some flat)
  else
    .ok (0, none)

/-! ### ResnetBlock (networks.py lines 884-941)

`build_conv_block` assembles `[pad?] conv norm relu [dropout] [pad?] conv
norm`; the two pad slots and the convolutions' `padding` argument depend
on `padding_type` (`zero` folds the padding into the convolution).  The
two `norm_layer(dim)` instances are the function parameters `norm1`,
`norm2`; `forward` adds the block input to the branch output.
-/

/-- Apply an optional explicit padding layer. -/
def applyOptLayer (f : Option (T4 → T4)) (t : T4) : T4 :=
  match f with
  | none => t
  | some g => g t

/-- One `padding_type` test of `build_conv_block` (networks.py lines
911-919 and 925-933): produces the convolution `padding` value `p` and
the optional explicit pad layer, or raises for an unknown policy. -/
def padStep (padding_type : String) : Except String (ℕ × Option (T4 → T4)) :=
  if padding_type = "reflect" then .ok (0, some (reflectionPad2d 1))
  else if padding_type = "replicate" then .ok (0, some (replicationPad2d 1))
  else if padding_type = "zero" then .ok (1, none)
  else .error ("padding [" ++ padding_type ++ "] is not implemented")

/-- The assembled convolutional branch of a `ResnetBlock`:
`[pad?] → Conv2d(dim, dim, 3, padding=p) → norm → ReLU → [Dropout] →
[pad?] → Conv2d(dim, dim, 3, padding=p) → norm` (dropout in evaluation
mode). -/
def convBranch (p1 p2 : ℕ) (pad1 pad2 : Option (T4 → T4)) (dim : ℕ)
    (w1 : ℕ → ℕ → ℕ → ℕ → ℚ) (b1 : ℕ → ℚ) (w2 : ℕ → ℕ → ℕ → ℕ → ℚ) (b2 : ℕ → ℚ)
    (norm1 norm2 : T4 → T4) (use_dropout : Bool) (x : T4) : T4 :=
  let x1 := applyOptLayer pad1 x
  let x2 := conv2d dim dim 3 1 p1 w1 b1 x1
  let x3 := relu4 (norm1 x2)
  let x4 := if use_dropout then dropoutEval x3 else x3
  let x5 := applyOptLayer pad2 x4
  let x6 := conv2d dim dim 3 1 p2 w2 b2 x5
  norm2 x6

/-- `ResnetBlock.build_conv_block(dim, padding_type, norm_layer,
use_dropout, use_bias)` (networks.py lines 898-936): the padding policy is
validated twice (once per conv stage), then the branch is assembled. -/
def build_conv_block (padding_type : String) (dim : ℕ)
    (w1 : ℕ → ℕ → ℕ → ℕ → ℚ) (b1 : ℕ → ℚ) (w2 : ℕ → ℕ → ℕ → ℕ → ℚ) (b2 : ℕ → ℚ)
    (norm1 norm2 : T4 → T4) (use_dropout : Bool) : Except String (T4 → T4) := do
  let (p1, pad1) ← padStep padding_type
  let (p2, pad2) ← padStep padding_type
  .ok (convBranch p1 p2 pad1 pad2 dim w1 b1 w2 b2 norm1 norm2 use_dropout)

/-- Elementwise sum of two tensors of equal shape (`x + self.conv_block(x)`;
PyTorch would reject shapes that do not broadcast, and the residual case
is the equal-shape one). -/
def addT4 (x y : T4) : Option T4 :=
  if x.n = y.n ∧ x.c = y.c ∧ x.h = y.h ∧ x.w = y.w then
    some { n := x.n, c := x.c, h := x.h, w := x.w,
           data := fun b i yy xx => x.data b i yy xx + y.data b i yy xx }
  else none

/-- `ResnetBlock.forward(x)` (networks.py lines 938-941):
`out = x + self.conv_block(x)`. -/
def resnetBlockForward (conv_block : T4 → T4) (x : T4) : Option T4 :=
  addT4 x (conv_block x)

/-! ### Discriminator_Classify, shape level (networks.py lines 1093-1133)

Six strided convolutions with `BatchNorm2d`/`LeakyReLU` (shape
preserving), then `conv_out.view(4, -1)` and `nn.Linear(ndf * 32 * 16, 2)`.
Only shapes decide the checked properties, so the forward pass is
modelled on shapes.
-/

/-- Shape of a 4-D tensor. -/
structure Shape4 where
  n : ℕ
  c : ℕ
  h : ℕ
  w : ℕ
deriving DecidableEq

/-- Shape transfer of `nn.Conv2d(cin, cout, kernel_size=k, stride=s,
padding=p)`: requires the declared input channel count and a kernel that
fits the padded input. -/
def convShape (cin cout k s p : ℕ) (sh : Shape4) : Except String Shape4 :=
  if sh.c = cin then
    if k ≤ sh.h + 2 * p ∧ k ≤ sh.w + 2 * p then
      .ok ⟨sh.n, cout, (sh.h + 2 * p - k) / s + 1, (sh.w + 2 * p - k) / s + 1⟩
    else .error "conv2d: kernel does not fit padded input"
  else .error "conv2d: channel mismatch"

/-- Shape behaviour of `Discriminator_Classify.forward` with filter base
`ndf`: the `self.conv` stack (`BatchNorm2d` and `LeakyReLU` preserve
shapes), then `view(4, -1)` (total element count must be divisible by 4),
then the `nn.Linear(ndf * 32 * 16, 2)` head (its input feature count must
match); the result is the `(rows, classes)` pair. -/
def discClassifyForwardShape (input_nc ndf : ℕ) (sh : Shape4) : Except String (ℕ × ℕ) := do
  let s1 ← convShape input_nc ndf 4 2 1 sh
  let s2 ← convShape ndf (ndf * 2) 4 2 1 s1
  let s3 ← convShape (ndf * 2) (ndf * 4) 4 2 1 s2
  let s4 ← convShape (ndf * 4) (ndf * 8) 4 2 1 s3
  let s5 ← convShape (ndf * 8) (ndf * 16) 4 2 1 s4
  let s6 ← convShape (ndf * 16) (ndf * 32) 3 2 1 s5
  if s6.n * s6.c * s6.h * s6.w % 4 = 0 then
    if s6.n * s6.c * s6.h * s6.w / 4 = ndf * 32 * 16 then .ok (4, 2)
    else .error "linear: input features mismatch"
  else .error "view: size not divisible by batch 4"

/-- A layer keeps its input's shape (true of every normalization layer the
resnet block is instantiated with: `BatchNorm2d`, `InstanceNorm2d`,
`Identity`). -/
def shapePreserving (f : T4 → T4) : Prop :=
  ∀ t : T4, (f t).n = t.n ∧ (f t).c = t.c ∧ (f t).h = t.h ∧ (f t).w = t.w

/-- Shape behaviour of one optional pad slot of `build_conv_block`: the
slot grows each spatial axis by `2 * q` (with `q = 0` for the empty slot
of the `zero` policy and `q = 1` for an explicit pad layer). -/
def padSpec (q : ℕ) (pad : Option (T4 → T4)) : Prop :=
  ∀ t : T4, (applyOptLayer pad t).n = t.n ∧ (applyOptLayer pad t).c = t.c ∧
    (applyOptLayer pad t).h = t.h + 2 * q ∧ (applyOptLayer pad t).w = t.w + 2 * q

/-! ### Helper lemmas -/

/-- Destructing a successful `Except` bind. -/
theorem exceptBind_eq_ok {α β : Type} {x : Except String α} {f : α → Except String β} {b : β}
    (h : (x >>= f) = .ok b) : ∃ a, x = .ok a ∧ f a = .ok b := by
  cases x with
  | error e => exact Except.noConfusion h
  | ok a => exact ⟨a, rfl, h⟩

/-- Successful binds compute. -/
theorem exceptOk_bind {α β : Type} (a : α) (f : α → Except String β) :
    (Except.ok a >>= f : Except String β) = f a := rfl

/-! ### Claim C1 -/

/-- Claim C1: evaluation of `get_norm_layer` on each policy name.  The
policies `batch`, `instance` and `none` return factories that, applied to
a channel count, yield the corresponding normalization operator (an
identity transform for `none`); any unknown name fails with the
unrecognized-policy error.  The `layer` branch, however, does not return:
it evaluates `LayerNorm()` without the mandatory `normalized_shape`
argument and so raises `TypeError` — the code slip behind the C1
divergence (and `define_G`/`define_D` default to `norm='layer'`). -/
theorem C1_get_norm_layer_eval :
    get_norm_layer "batch" = .ok (.factory .batchNorm) ∧
    get_norm_layer "instance" = .ok (.factory .instanceNorm) ∧
    get_norm_layer "none" = .ok (.factory .noneFactory) ∧
    applyNormFactory .batchNorm 8 = .batchNorm2d 8 true true ∧
    applyNormFactory .instanceNorm 8 = .instanceNorm2d 8 false false ∧
    applyNormFactory .noneFactory 8 = .identity ∧
    get_norm_layer "layer" =
      .error "TypeError: LayerNorm missing 1 required positional argument: normalized_shape" ∧
    get_norm_layer "spectral" = .error ("normalization layer [" ++ "spectral" ++ "] is not found") :=
  ⟨rfl, rfl, rfl, rfl, rfl, rfl, rfl, rfl⟩

/-! ### Claim C2 -/

/-- Claim C2, counterexample: the spelling `convnext_interpolation` from
the claim is rejected with the unrecognized-name error, while the
capitalised `Convnext_Interpolation` (networks.py line 192) is the name
that constructs the bicubic-interpolation generator. -/
theorem C2_counterexample :
    define_G 3 3 96 "convnext_interpolation" "instance" false "normal" =
      .error ("Generator model name [" ++ "convnext_interpolation" ++ "] is not recognized") ∧
    define_G 3 3 96 "Convnext_Interpolation" "instance" false "normal" =
      .ok (.convnextBI 3 3 96) :=
  ⟨rfl, rfl⟩

/-- Claim C2 (amended): with a valid normalization and init policy,
`define_G` constructs a generator for exactly the eight names
`resnet_9blocks`, `resnet_6blocks`, `resnet_1blocks`, `convnext`,
`invnext`, `Convnext_Interpolation`, `unet_128`, `unet_256`, and fails
with the unrecognized-name error for every other kind string. -/
theorem C2_define_G_dispatch (input_nc output_nc ngf : ℕ) (use_dropout : Bool) (netG : String) :
    (netG ∈ ["resnet_9blocks", "resnet_6blocks", "resnet_1blocks", "convnext", "invnext",
        "Convnext_Interpolation", "unet_128", "unet_256"] →
      ∃ g : GenNet,
        define_G input_nc output_nc ngf netG "instance" use_dropout "normal" = .ok g) ∧
    (netG ∉ ["resnet_9blocks", "resnet_6blocks", "resnet_1blocks", "convnext", "invnext",
        "Convnext_Interpolation", "unet_128", "unet_256"] →
      define_G input_nc output_nc ngf netG "instance" use_dropout "normal" =
        .error ("Generator model name [" ++ netG ++ "] is not recognized")) := by
  constructor
  · intro hmem
    simp only [List.mem_cons, List.not_mem_nil, or_false] at hmem
    rcases hmem with rfl | rfl | rfl | rfl | rfl | rfl | rfl | rfl <;> exact ⟨_, rfl⟩
  · intro hmem
    have h1 : netG ≠ "resnet_9blocks" := by intro h; exact hmem (by simp [h])
    have h2 : netG ≠ "resnet_6blocks" := by intro h; exact hmem (by simp [h])
    have h3 : netG ≠ "resnet_1blocks" := by intro h; exact hmem (by simp [h])
    have h4 : netG ≠ "convnext" := by intro h; exact hmem (by simp [h])
    have h5 : netG ≠ "invnext" := by intro h; exact hmem (by simp [h])
    have h6 : netG ≠ "Convnext_Interpolation" := by intro h; exact hmem (by simp [h])
    have h7 : netG ≠ "unet_128" := by intro h; exact hmem (by simp [h])
    have h8 : netG ≠ "unet_256" := by intro h; exact hmem (by simp [h])
    have hstep : define_G input_nc output_nc ngf netG "instance" use_dropout "normal" =
        ((if netG = "resnet_9blocks" then
            .ok (.resnet input_nc output_nc ngf 9 use_dropout)
          else if netG = "resnet_6blocks" then
            .ok (.resnet input_nc output_nc ngf 6 use_dropout)
          else if netG = "resnet_1blocks" then
            .ok (.resnet input_nc output_nc ngf 1 use_dropout)
          else if netG = "convnext" then .ok (.convnext input_nc output_nc ngf)
          else if netG = "invnext" then .ok (.invnext input_nc output_nc ngf)
          else if netG = "Convnext_Interpolation" then .ok (.convnextBI input_nc output_nc ngf)
          else if netG = "unet_128" then .ok (.unet input_nc output_nc 7 ngf use_dropout)
          else if netG = "unet_256" then .ok (.unet input_nc output_nc 8 ngf use_dropout)
          else .error ("Generator model name [" ++ netG ++ "] is not recognized")
            : Except String GenNet) >>= (fun net => init_net net "normal")) := rfl
    rw [hstep, if_neg h1, if_neg h2, if_neg h3, if_neg h4, if_neg h5, if_neg h6, if_neg h7,
      if_neg h8]
    rfl

/-- Claim C2, witness: the `convnext` kind is accepted. -/
theorem C2_witness :
    ∃ g : GenNet, define_G 3 3 96 "convnext" "instance" false "normal" = .ok g :=
  (C2_define_G_dispatch 3 3 96 false "convnext").1 (by simp)

/-! ### Claim C3 -/

/-- Claim C3, counterexample: the construction draw `r = 12` is a
legitimate `random.randint(7, 12)` outcome (the Python range is closed),
and it puts the real label at exactly `1.2`, which is not inside the
half-open interval `[0.7, 1.2)` claimed by the spec. -/
theorem C3_counterexample :
    Except.map GANLoss.real_label (ganLossInit 12 0 "lsgan") = .ok (((12 : ℕ) : ℚ) / 10) ∧
    ¬ (((12 : ℕ) : ℚ) / 10 < 12 / 10) ∧ 7 ≤ 12 ∧ 12 ≤ 12 :=
  ⟨rfl, by norm_num, by norm_num, by norm_num⟩

/-- Claim C3 (amended): for a loss component constructed in mode `lsgan`
or `vanilla`, each invocation builds a target tensor broadcast to the
prediction's shape filled with the real-label scalar `r / 10` — where `r`
is drawn uniformly over the integers `7..12` inclusive, so the label lies
in the closed range `[0.7, 1.2]` — when the real flag is true, or the
fake-label scalar `f / 10` with `f` uniform over `0..3` inclusive (label
in `[0.0, 0.3]`) when false; the label scalars are drawn exactly once at
component construction (the fill value below depends only on the
construction draws, for every prediction passed to a call). -/
theorem C3_label_bounds (r f : ℕ) (hr1 : 7 ≤ r) (hr2 : r ≤ 12) (hf : f ≤ 3)
    (mode : String) (hm : mode = "lsgan" ∨ mode = "vanilla")
    (g : GANLoss) (hg : ganLossInit r f mode = .ok g) (pred : List ℚ) :
    get_target_tensor g pred true = List.replicate pred.length ((r : ℚ) / 10) ∧
    get_target_tensor g pred false = List.replicate pred.length ((f : ℚ) / 10) ∧
    7 / 10 ≤ (r : ℚ) / 10 ∧ (r : ℚ) / 10 ≤ 12 / 10 ∧
    0 ≤ (f : ℚ) / 10 ∧ (f : ℚ) / 10 ≤ 3 / 10 := by
  have hrQ : (7 : ℚ) ≤ (r : ℚ) := by exact_mod_cast hr1
  have hrQ2 : (r : ℚ) ≤ 12 := by exact_mod_cast hr2
  have hfQ : (f : ℚ) ≤ 3 := by exact_mod_cast hf
  have hfQ0 : (0 : ℚ) ≤ (f : ℚ) := by positivity
  have hlab : g.real_label = (r : ℚ) / 10 ∧ g.fake_label = (f : ℚ) / 10 := by
    rcases hm with rfl | rfl
    · have hred : ganLossInit r f "lsgan" = .ok ⟨(r : ℚ) / 10, (f : ℚ) / 10,
          [1, 1, 1, 1], [0, 0, 0, 0], "lsgan", some LossKind.mse⟩ := rfl
      rw [hred] at hg
      injection hg with hgg
      subst hgg
      exact ⟨rfl, rfl⟩
    · have hred : ganLossInit r f "vanilla" = .ok ⟨(r : ℚ) / 10, (f : ℚ) / 10,
          [1, 1, 1, 1], [0, 0, 0, 0], "vanilla", some LossKind.bce⟩ := rfl
      rw [hred] at hg
      injection hg with hgg
      subst hgg
      exact ⟨rfl, rfl⟩
  refine ⟨?_, ?_, by linarith, by linarith, by linarith, by linarith⟩
  · simp [get_target_tensor, hlab.1]
  · simp [get_target_tensor, hlab.2]

/-- Claim C3, witness: the amended statement at the draw `r = 7`,
`f = 0`, mode `lsgan`, prediction `[0]`. -/
theorem C3_witness :
    get_target_tensor ⟨((7 : ℕ) : ℚ) / 10, ((0 : ℕ) : ℚ) / 10, [1, 1, 1, 1], [0, 0, 0, 0],
        "lsgan", some LossKind.mse⟩ [0] true =
      List.replicate ([0] : List ℚ).length (((7 : ℕ) : ℚ) / 10) ∧
    get_target_tensor ⟨((7 : ℕ) : ℚ) / 10, ((0 : ℕ) : ℚ) / 10, [1, 1, 1, 1], [0, 0, 0, 0],
        "lsgan", some LossKind.mse⟩ [0] false =
      List.replicate ([0] : List ℚ).length (((0 : ℕ) : ℚ) / 10) ∧
    7 / 10 ≤ ((7 : ℕ) : ℚ) / 10 ∧ ((7 : ℕ) : ℚ) / 10 ≤ 12 / 10 ∧
    0 ≤ ((0 : ℕ) : ℚ) / 10 ∧ ((0 : ℕ) : ℚ) / 10 ≤ 3 / 10 :=
  C3_label_bounds 7 0 (by norm_num) (by norm_num) (by norm_num) "lsgan" (Or.inl rfl) _ rfl [0]

/-! ### Claim C4 -/

/-- Claim C4: for a loss component constructed in mode `wgangp`, every
invocation returns exactly the negated mean of the prediction when the
real flag is true, and exactly the plain mean when the flag is false. -/
theorem C4_wgangp_loss (r f : ℕ) (g : GANLoss)
    (hg : ganLossInit r f "wgangp" = .ok g) (pred : List ℚ) :
    ganLossCall g pred true = some (.ofScalar (-(meanQ pred))) ∧
    ganLossCall g pred false = some (.ofScalar (meanQ pred)) := by
  have hred : ganLossInit r f "wgangp" = .ok ⟨(r : ℚ) / 10, (f : ℚ) / 10,
      [1, 1, 1, 1], [0, 0, 0, 0], "wgangp", none⟩ := rfl
  rw [hred] at hg
  injection hg with hgg
  subst hgg
  exact ⟨rfl, rfl⟩

/-- Claim C4, witness: the `wgangp` loss at the draw `r = 7`, `f = 0` on
the prediction `[1, 2]`. -/
theorem C4_witness :
    ganLossCall ⟨((7 : ℕ) : ℚ) / 10, ((0 : ℕ) : ℚ) / 10, [1, 1, 1, 1], [0, 0, 0, 0],
        "wgangp", none⟩ [1, 2] true = some (.ofScalar (-(meanQ [1, 2]))) ∧
    ganLossCall ⟨((7 : ℕ) : ℚ) / 10, ((0 : ℕ) : ℚ) / 10, [1, 1, 1, 1], [0, 0, 0, 0],
        "wgangp", none⟩ [1, 2] false = some (.ofScalar (meanQ [1, 2])) :=
  C4_wgangp_loss 7 0 _ rfl [1, 2]

/-! ### Claim C5 -/

/-- Claim C5, counterexample: with the unknown interpolation type `bogus`
but a non-positive penalty weight, `cal_gradient_penalty` does not fail —
it returns `(0.0, None)` because the weight test precedes the type
dispatch. -/
theorem C5_counterexample :
    cal_gradient_penalty (fun _ t => t) (fun _ => 0) (fun t => t)
        ⟨1, 1, 1, 1, fun _ _ _ _ => 0⟩ ⟨1, 1, 1, 1, fun _ _ _ _ => 0⟩ "cpu" "bogus" 1 0
        (fun _ => 0) = .ok (0, none) ∧
    ¬ ("bogus" ∈ ["real", "fake", "mixed"]) :=
  ⟨rfl, by decide⟩

/-- Claim C5 (amended): for every interpolation-type name outside
`{real, fake, mixed}` and every positive penalty weight,
`cal_gradient_penalty` fails with the unimplemented-policy error (for all
values of the remaining arguments); with a non-positive weight it instead
returns `(0.0, None)` without validating the name. -/
theorem C5_unknown_type_errors (autograd : (T4 → T4) → T4 → T4) (norm2eps : List ℚ → ℚ)
    (netD : T4 → T4) (real_data fake_data : T4) (device ty : String)
    (constant lambda_gp : ℚ) (alphaDraw : ℕ → ℚ)
    (hty : ty ∉ ["real", "fake", "mixed"]) (hl : 0 < lambda_gp) :
    cal_gradient_penalty autograd norm2eps netD real_data fake_data device ty constant
      lambda_gp alphaDraw = .error (ty ++ " not implemented") := by
  have t1 : ty ≠ "real" := by intro h; exact hty (by simp [h])
  have t2 : ty ≠ "fake" := by intro h; exact hty (by simp [h])
  have t3 : ty ≠ "mixed" := by intro h; exact hty (by simp [h])
  simp [cal_gradient_penalty, hl, t1, t2, t3]

/-- Claim C5, witness: the type `bogus` with weight `1` fails. -/
theorem C5_witness :
    cal_gradient_penalty (fun _ t => t) (fun _ => 0) (fun t => t)
        ⟨1, 1, 1, 1, fun _ _ _ _ => 0⟩ ⟨1, 1, 1, 1, fun _ _ _ _ => 0⟩ "cpu" "bogus" 1 1
        (fun _ => 0) = .error ("bogus" ++ " not implemented") :=
  C5_unknown_type_errors (fun _ t => t) (fun _ => 0) (fun t => t)
    ⟨1, 1, 1, 1, fun _ _ _ _ => 0⟩ ⟨1, 1, 1, 1, fun _ _ _ _ => 0⟩ "cpu" "bogus" 1 1
    (fun _ => 0) (by decide) (by norm_num)

/-! ### Claim C6 -/

/-- Claim C6: for every penalty weight `lambda_gp ≤ 0`,
`cal_gradient_penalty` returns exactly `(0.0, None)`, regardless of the
discriminator, the real and fake batches, the interpolation type and the
target-norm constant. -/
theorem C6_nonpositive_weight (autograd : (T4 → T4) → T4 → T4) (norm2eps : List ℚ → ℚ)
    (netD : T4 → T4) (real_data fake_data : T4) (device ty : String)
    (constant lambda_gp : ℚ) (alphaDraw : ℕ → ℚ) (h : lambda_gp ≤ 0) :
    cal_gradient_penalty autograd norm2eps netD real_data fake_data device ty constant
      lambda_gp alphaDraw = .ok (0, none) := by
  simp [cal_gradient_penalty, not_lt.mpr h]

/-- Claim C6, witness: weight `0`, type `mixed`. -/
theorem C6_witness :
    cal_gradient_penalty (fun _ t => t) (fun _ => 0) (fun t => t)
        ⟨1, 1, 1, 1, fun _ _ _ _ => 0⟩ ⟨1, 1, 1, 1, fun _ _ _ _ => 0⟩ "cpu" "mixed" 1 0
        (fun _ => 0) = .ok (0, none) :=
  C6_nonpositive_weight (fun _ t => t) (fun _ => 0) (fun t => t)
    ⟨1, 1, 1, 1, fun _ _ _ _ => 0⟩ ⟨1, 1, 1, 1, fun _ _ _ _ => 0⟩ "cpu" "mixed" 1 0
    (fun _ => 0) (by norm_num)

/-! ### Claim C7 -/

/-- Claim C7, counterexample: with the unknown init type `foo`,
`init_weights` completes without error on a network whose only module is
a `ReLU` (no weighted `Conv`/`Linear` submodule), contradicting "fails
... for every network it is applied to". -/
theorem C7_counterexample :
    init_weights [⟨"ReLU", false, false⟩] "foo" = .ok () ∧
    "foo" ∉ ["normal", "xavier", "kaiming", "orthogonal"] :=
  ⟨rfl, by decide⟩

/-- Claim C7 (amended): for every init-type name outside
`{normal, xavier, kaiming, orthogonal}`, `init_weights` fails with the
unimplemented-method error exactly when the network contains a module
exposing a weight whose class name contains `Conv` or `Linear`; on
networks with no such module it completes without error (the error is
raised inside the per-module closure, which only reaches the init-type
dispatch on such modules). -/
theorem C7_init_weights_errors (init_type : String)
    (h : init_type ∉ ["normal", "xavier", "kaiming", "orthogonal"]) (net : List PyModule) :
    init_weights net init_type =
      (if net.any (fun m => m.has_weight &&
          (strContains m.classname "Conv" || strContains m.classname "Linear")) then
        .error ("initialization method [" ++ init_type ++ "] is not implemented")
      else .ok ()) := by
  have h1 : init_type ≠ "normal" := by intro hh; exact h (by simp [hh])
  have h2 : init_type ≠ "xavier" := by intro hh; exact h (by simp [hh])
  have h3 : init_type ≠ "kaiming" := by intro hh; exact h (by simp [hh])
  have h4 : init_type ≠ "orthogonal" := by intro hh; exact h (by simp [hh])
  induction net with
  | nil => rfl
  | cons m rest ih =>
    have hstep : init_weights (m :: rest) init_type =
        (init_func init_type m >>= fun _ => init_weights rest init_type) := rfl
    by_cases hm : (m.has_weight &&
        (strContains m.classname "Conv" || strContains m.classname "Linear")) = true
    · have hfunc : init_func init_type m =
          .error ("initialization method [" ++ init_type ++ "] is not implemented") := by
        simp [init_func, hm, h1, h2, h3, h4]
      rw [hstep, hfunc, List.any_cons, hm]
      rfl
    · have hm' : (m.has_weight &&
          (strContains m.classname "Conv" || strContains m.classname "Linear")) = false := by
        revert hm
        cases m.has_weight && (strContains m.classname "Conv" || strContains m.classname "Linear")
        · intro _; rfl
        · intro hc; exact absurd rfl hc
      have hfunc : init_func init_type m = .ok () := by
        simp [init_func, hm']
      rw [hstep, hfunc, List.any_cons, hm', ih]
      rfl

/-- Claim C7, witness: the unknown init type `foo` on a
single-`Conv2d`-module network fails with the unimplemented-method
error. -/
theorem C7_witness :
    init_weights [⟨"Conv2d", true, true⟩] "foo" =
      (if [(⟨"Conv2d", true, true⟩ : PyModule)].any (fun m => m.has_weight &&
          (strContains m.classname "Conv" || strContains m.classname "Linear")) then
        .error ("initialization method [" ++ "foo" ++ "] is not implemented")
      else .ok ()) :=
  C7_init_weights_errors "foo" (by decide) [⟨"Conv2d", true, true⟩]

/-! ### Claim C10 -/

/-- Claim C10: every successfully constructed `GANLoss` has its mode
among `lsgan`, `vanilla`, `binary`, `wgangp`, and every invocation of its
call operator takes one of the four defined branches, so the returned
loss is always defined (the fall-through assigning no loss is
unreachable). -/
theorem C10_ganloss_total (r f : ℕ) (mode : String) (g : GANLoss)
    (hg : ganLossInit r f mode = .ok g) (pred : List ℚ) (flag : Bool) :
    (mode = "lsgan" ∨ mode = "vanilla" ∨ mode = "binary" ∨ mode = "wgangp") ∧
    (ganLossCall g pred flag).isSome = true := by
  by_cases hA : mode = "lsgan"
  · subst hA
    have hred : ganLossInit r f "lsgan" = .ok ⟨(r : ℚ) / 10, (f : ℚ) / 10,
        [1, 1, 1, 1], [0, 0, 0, 0], "lsgan", some LossKind.mse⟩ := rfl
    rw [hred] at hg
    injection hg with hgg
    subst hgg
    exact ⟨Or.inl rfl, rfl⟩
  by_cases hB : mode = "binary"
  · subst hB
    have hred : ganLossInit r f "binary" = .ok ⟨(r : ℚ) / 10, (f : ℚ) / 10,
        [1, 1, 1, 1], [0, 0, 0, 0], "binary", some LossKind.ce⟩ := rfl
    rw [hred] at hg
    injection hg with hgg
    subst hgg
    exact ⟨Or.inr (Or.inr (Or.inl rfl)), rfl⟩
  by_cases hC : mode = "vanilla"
  · subst hC
    have hred : ganLossInit r f "vanilla" = .ok ⟨(r : ℚ) / 10, (f : ℚ) / 10,
        [1, 1, 1, 1], [0, 0, 0, 0], "vanilla", some LossKind.bce⟩ := rfl
    rw [hred] at hg
    injection hg with hgg
    subst hgg
    exact ⟨Or.inr (Or.inl rfl), rfl⟩
  by_cases hD : mode = "wgangp"
  · subst hD
    have hred : ganLossInit r f "wgangp" = .ok ⟨(r : ℚ) / 10, (f : ℚ) / 10,
        [1, 1, 1, 1], [0, 0, 0, 0], "wgangp", none⟩ := rfl
    rw [hred] at hg
    injection hg with hgg
    subst hgg
    exact ⟨Or.inr (Or.inr (Or.inr rfl)), rfl⟩
  · have herr : ganLossInit r f mode = .error ("gan mode " ++ mode ++ " not implemented") := by
      simp [ganLossInit, hA, hB, hC, hD]
    rw [herr] at hg
    exact Except.noConfusion hg

/-- Claim C10, witness: the `binary` mode at the draw `r = 7`, `f = 0`,
prediction `[1, 2]`, real flag. -/
theorem C10_witness :
    ("binary" = "lsgan" ∨ "binary" = "vanilla" ∨ "binary" = "binary" ∨ "binary" = "wgangp") ∧
    (ganLossCall ⟨((7 : ℕ) : ℚ) / 10, ((0 : ℕ) : ℚ) / 10, [1, 1, 1, 1], [0, 0, 0, 0],
        "binary", some LossKind.ce⟩ [1, 2] true).isSome = true :=
  C10_ganloss_total 7 0 "binary" _ rfl [1, 2] true

/-! ### Shape lemmas for the residual block -/

theorem conv2d_n (cin cout k s p : ℕ) (wt : ℕ → ℕ → ℕ → ℕ → ℚ) (bs : ℕ → ℚ) (t : T4) :
    (conv2d cin cout k s p wt bs t).n = t.n := rfl

theorem conv2d_c (cin cout k s p : ℕ) (wt : ℕ → ℕ → ℕ → ℕ → ℚ) (bs : ℕ → ℚ) (t : T4) :
    (conv2d cin cout k s p wt bs t).c = cout := rfl

theorem conv2d_h (cin cout k s p : ℕ) (wt : ℕ → ℕ → ℕ → ℕ → ℚ) (bs : ℕ → ℚ) (t : T4) :
    (conv2d cin cout k s p wt bs t).h = (t.h + 2 * p - k) / s + 1 := rfl

theorem conv2d_w (cin cout k s p : ℕ) (wt : ℕ → ℕ → ℕ → ℕ → ℚ) (bs : ℕ → ℚ) (t : T4) :
    (conv2d cin cout k s p wt bs t).w = (t.w + 2 * p - k) / s + 1 := rfl

theorem relu4_n (t : T4) : (relu4 t).n = t.n := rfl

theorem relu4_c (t : T4) : (relu4 t).c = t.c := rfl

theorem relu4_h (t : T4) : (relu4 t).h = t.h := rfl

theorem relu4_w (t : T4) : (relu4 t).w = t.w := rfl

/-- Evaluation-mode dropout does not change the branch value whether or
not the block was built with `use_dropout`. -/
theorem ite_dropout (ud : Bool) (z : T4) : (if ud then dropoutEval z else z) = z := by
  cases ud <;> rfl

/-- The empty pad slot of the `zero` policy adds no padding. -/
theorem padSpec_zero : padSpec 0 none :=
  fun t => ⟨rfl, rfl, by simp [applyOptLayer], by simp [applyOptLayer]⟩

/-- `ReflectionPad2d(1)` adds one pixel on each side. -/
theorem padSpec_reflect : padSpec 1 (some (reflectionPad2d 1)) :=
  fun _ => ⟨rfl, rfl, rfl, rfl⟩

/-- `ReplicationPad2d(1)` adds one pixel on each side. -/
theorem padSpec_replicate : padSpec 1 (some (replicationPad2d 1)) :=
  fun _ => ⟨rfl, rfl, rfl, rfl⟩

/-- Shape of the assembled convolutional branch: with any pad/convolution
padding combination totalling one pixel per side per stage and
shape-preserving norms, the branch maps a `(n, dim, h, w)` tensor
(`1 ≤ h`, `1 ≤ w`) to a tensor of batch `n`, channels `dim` and the same
spatial size. -/
theorem convBranch_shape (p1 p2 q1 q2 : ℕ) (pad1 pad2 : Option (T4 → T4)) (dim : ℕ)
    (wA : ℕ → ℕ → ℕ → ℕ → ℚ) (bA : ℕ → ℚ) (wB : ℕ → ℕ → ℕ → ℕ → ℚ) (bB : ℕ → ℚ)
    (norm1 norm2 : T4 → T4) (ud : Bool) (x : T4)
    (hq1 : q1 + p1 = 1) (hq2 : q2 + p2 = 1)
    (hpad1 : padSpec q1 pad1) (hpad2 : padSpec q2 pad2)
    (hn1 : shapePreserving norm1) (hn2 : shapePreserving norm2)
    (hh : 1 ≤ x.h) (hw : 1 ≤ x.w) :
    (convBranch p1 p2 pad1 pad2 dim wA bA wB bB norm1 norm2 ud x).n = x.n ∧
    (convBranch p1 p2 pad1 pad2 dim wA bA wB bB norm1 norm2 ud x).c = dim ∧
    (convBranch p1 p2 pad1 pad2 dim wA bA wB bB norm1 norm2 ud x).h = x.h ∧
    (convBranch p1 p2 pad1 pad2 dim wA bA wB bB norm1 norm2 ud x).w = x.w := by
  have e := hpad1 x
  have g := hn1 (conv2d dim dim 3 1 p1 wA bA (applyOptLayer pad1 x))
  have f := hpad2 (relu4 (norm1 (conv2d dim dim 3 1 p1 wA bA (applyOptLayer pad1 x))))
  have k := hn2 (conv2d dim dim 3 1 p2 wB bB (applyOptLayer pad2
    (relu4 (norm1 (conv2d dim dim 3 1 p1 wA bA (applyOptLayer pad1 x))))))
  simp only [convBranch, ite_dropout]
  refine ⟨?_, ?_, ?_, ?_⟩
  · rw [k.1, conv2d_n, f.1, relu4_n, g.1, conv2d_n]
    exact e.1
  · rw [k.2.1, conv2d_c]
  · rw [k.2.2.1, conv2d_h, f.2.2.1, relu4_h, g.2.2.1, conv2d_h, e.2.2.1]
    simp only [Nat.div_one]
    omega
  · rw [k.2.2.2, conv2d_w, f.2.2.2, relu4_w, g.2.2.2, conv2d_w, e.2.2.2]
    simp only [Nat.div_one]
    omega

/-! ### Claim C8 -/

/-- Claim C8: for every padding policy among `reflect`, `replicate` and
`zero` (with shape-preserving normalization layers, matching channel
count and non-degenerate spatial size), `build_conv_block` succeeds and
the residual block's forward output is exactly the input plus the
convolutional branch applied to that input; with the `zero` policy, the
branch keeps the input spatial size (the one-pixel padding having been
folded into the convolutions' `padding` argument instead of an explicit
pad layer), so the output spatial size equals the input's. -/
theorem C8_resnet_block (pt : String)
    (hpt : pt = "reflect" ∨ pt = "replicate" ∨ pt = "zero") (dim : ℕ)
    (wA : ℕ → ℕ → ℕ → ℕ → ℚ) (bA : ℕ → ℚ) (wB : ℕ → ℕ → ℕ → ℕ → ℚ) (bB : ℕ → ℚ)
    (norm1 norm2 : T4 → T4) (ud : Bool)
    (hn1 : shapePreserving norm1) (hn2 : shapePreserving norm2)
    (x : T4) (hc : x.c = dim) (hh : 1 ≤ x.h) (hw : 1 ≤ x.w) :
    ∃ cb : T4 → T4,
      build_conv_block pt dim wA bA wB bB norm1 norm2 ud = .ok cb ∧
      resnetBlockForward cb x =
        some ⟨x.n, x.c, x.h, x.w,
          fun b i yy xx => x.data b i yy xx + (cb x).data b i yy xx⟩ ∧
      (pt = "zero" → (cb x).h = x.h ∧ (cb x).w = x.w) := by
  have main : ∀ (q p : ℕ) (pad : Option (T4 → T4)), q + p = 1 → padSpec q pad →
      resnetBlockForward (convBranch p p pad pad dim wA bA wB bB norm1 norm2 ud) x =
        some ⟨x.n, x.c, x.h, x.w, fun b i yy xx => x.data b i yy xx +
          (convBranch p p pad pad dim wA bA wB bB norm1 norm2 ud x).data b i yy xx⟩ ∧
      (convBranch p p pad pad dim wA bA wB bB norm1 norm2 ud x).h = x.h ∧
      (convBranch p p pad pad dim wA bA wB bB norm1 norm2 ud x).w = x.w := by
    intro q p pad hqp hpad
    obtain ⟨sn, sc, sh, sw⟩ := convBranch_shape p p q q pad pad dim wA bA wB bB norm1 norm2
      ud x hqp hqp hpad hpad hn1 hn2 hh hw
    refine ⟨?_, sh, sw⟩
    simp only [resnetBlockForward, addT4]
    rw [if_pos ⟨sn.symm, hc.trans sc.symm, sh.symm, sw.symm⟩]
  rcases hpt with rfl | rfl | rfl
  · have m := main 1 0 (some (reflectionPad2d 1)) rfl padSpec_reflect
    exact ⟨_, rfl, m.1, fun hz => absurd hz (by decide)⟩
  · have m := main 1 0 (some (replicationPad2d 1)) rfl padSpec_replicate
    exact ⟨_, rfl, m.1, fun hz => absurd hz (by decide)⟩
  · have m := main 0 1 none rfl padSpec_zero
    exact ⟨_, rfl, m.1, fun _ => ⟨m.2.1, m.2.2⟩⟩

/-- Claim C8, witness: the `zero` policy with `dim = 1`, identity norms,
all-ones convolution weights, zero biases and an all-ones `1×1×2×2`
input. -/
theorem C8_witness :
    ∃ cb : T4 → T4,
      build_conv_block "zero" 1 (fun _ _ _ _ => 1) (fun _ => 0) (fun _ _ _ _ => 1) (fun _ => 0)
        (fun t => t) (fun t => t) false = .ok cb ∧
      resnetBlockForward cb ⟨1, 1, 2, 2, fun _ _ _ _ => 1⟩ =
        some ⟨(⟨1, 1, 2, 2, fun _ _ _ _ => 1⟩ : T4).n, (⟨1, 1, 2, 2, fun _ _ _ _ => 1⟩ : T4).c,
          (⟨1, 1, 2, 2, fun _ _ _ _ => 1⟩ : T4).h, (⟨1, 1, 2, 2, fun _ _ _ _ => 1⟩ : T4).w,
          fun b i yy xx => (⟨1, 1, 2, 2, fun _ _ _ _ => 1⟩ : T4).data b i yy xx +
            (cb ⟨1, 1, 2, 2, fun _ _ _ _ => 1⟩).data b i yy xx⟩ ∧
      ("zero" = "zero" →
        (cb ⟨1, 1, 2, 2, fun _ _ _ _ => 1⟩).h = (⟨1, 1, 2, 2, fun _ _ _ _ => 1⟩ : T4).h ∧
        (cb ⟨1, 1, 2, 2, fun _ _ _ _ => 1⟩).w = (⟨1, 1, 2, 2, fun _ _ _ _ => 1⟩ : T4).w) :=
  C8_resnet_block "zero" (Or.inr (Or.inr rfl)) 1 (fun _ _ _ _ => 1) (fun _ => 0)
    (fun _ _ _ _ => 1) (fun _ => 0) (fun t => t) (fun t => t) false
    (fun _ => ⟨rfl, rfl, rfl, rfl⟩) (fun _ => ⟨rfl, rfl, rfl, rfl⟩)
    ⟨1, 1, 2, 2, fun _ _ _ _ => 1⟩ rfl (by decide) (by decide)

/-! ### Claim C9 -/

/-- Claim C9: the binary-classification discriminator's forward pass, on
a batch of exactly 4 samples of spatial size `224 × 224` (and the default
filter base `ndf = 96` used by `define_D`), returns a 2-class logit
vector per sample — output shape `4 × 2`; and because the internal
reshape is `view(4, -1)`, every successful forward pass has output batch
dimension 4, regardless of the input batch size. -/
theorem C9_disc_classify (input_nc : ℕ) :
    discClassifyForwardShape input_nc 96 ⟨4, input_nc, 224, 224⟩ = .ok (4, 2) ∧
    ∀ (sh : Shape4) (res : ℕ × ℕ),
      discClassifyForwardShape input_nc 96 sh = .ok res → res.1 = 4 := by
  constructor
  · simp [discClassifyForwardShape, convShape, exceptOk_bind]
  · intro sh res h
    unfold discClassifyForwardShape at h
    obtain ⟨s1, _, h⟩ := exceptBind_eq_ok h
    obtain ⟨s2, _, h⟩ := exceptBind_eq_ok h
    obtain ⟨s3, _, h⟩ := exceptBind_eq_ok h
    obtain ⟨s4, _, h⟩ := exceptBind_eq_ok h
    obtain ⟨s5, _, h⟩ := exceptBind_eq_ok h
    obtain ⟨s6, _, h⟩ := exceptBind_eq_ok h
    split at h
    · split at h
      · injection h with hh
        rw [← hh]
      · exact Except.noConfusion h
    · exact Except.noConfusion h

/-- Claim C9, witness: three input channels, batch 4, `224 × 224`. -/
theorem C9_witness :
    discClassifyForwardShape 3 96 ⟨4, 3, 224, 224⟩ = .ok (4, 2) ∧ ((4, 2) : ℕ × ℕ).1 = 4 :=
  ⟨(C9_disc_classify 3).1,
    (C9_disc_classify 3).2 ⟨4, 3, 224, 224⟩ (4, 2) (C9_disc_classify 3).1⟩
